import Mathlib

/-!
# Solar system viewer (`src/main.js`)

A shallow embedding of the scene construction, the per-frame animation and the
camera-mode handler of `main.js`, and the properties of the specification
proved (or refuted) over it.

Conventions of the embedding

* JavaScript globals become fields of explicit state records (`Rig` for the
  camera globals, `World` for the scene globals) that every function takes and
  returns.
* Objects with identity (controllers, planets, pivots, moons) live in the
  list that created them and are referred to by their index in it.
* Numbers are `JSNum ν`: a value of an exact field `ν` (`ℚ`, `ℝ`) or `NaN`.
  Decimal literals of the source are read as exact rationals, and rounding is
  not modelled.
* `Math.cos`, `Math.sin` and `Math.PI` are passed in as a `JSMath ν` record.
-/

namespace SolarViewer

/-! ## Camera rig: `view`, `loadShip`, `changeView` -/

/-- The two navigation controller classes that `main.js` instantiates. -/
inductive ControlKind where
  | fly
  | orbit
deriving DecidableEq, Repr

/-- A controller object: its class and whether `dispose()` has been called on it. -/
structure Control where
  kind : ControlKind
  disposed : Bool
deriving DecidableEq, Repr

/-- Controller life-cycle operations, in the order the program performs them. -/
inductive Op where
  | construct (id : Nat) (kind : ControlKind)
  | dispose (id : Nat)
deriving DecidableEq, Repr

/-- The camera-related globals of `main.js`: `flycontrol`, `camcontrols`
(an index into `controls`, the controllers constructed so far), the
children of `camera`, and `ship` (undefined until the model is loaded).
`log` records the controller operations performed so far. -/
structure Rig where
  flycontrol : Bool
  controls : List Control
  camcontrols : Option Nat
  cameraChildren : List Nat
  ship : Option Nat
  log : List Op
deriving DecidableEq, Repr

/-- Globals as initialised at lines 6-7: `flycontrol = true`, the rest undefined. -/
def initialRig : Rig :=
  { flycontrol := true, controls := [], camcontrols := none,
    cameraChildren := [], ship := none, log := [] }

/-- Effect of `camcontrols = new FlyControls(..)` / `new OrbitControls(..)`. -/
def newControls (k : ControlKind) (r : Rig) : Rig :=
  { r with
    controls := r.controls ++ [{ kind := k, disposed := false }]
    camcontrols := some r.controls.length
    log := r.log ++ [Op.construct r.controls.length k] }

/-- Marks the controller at index `i` as disposed. -/
def disposeAt : Nat → List Control → List Control
  | _, [] => []
  | 0, c :: cs => { c with disposed := true } :: cs
  | i + 1, c :: cs => c :: disposeAt i cs

/-- Line 237: `if (camcontrols && camcontrols.dispose) camcontrols.dispose();`
Both controller classes have a `dispose` method. -/
def disposeControls (r : Rig) : Rig :=
  match r.camcontrols with
  | none => r
  | some i => { r with controls := disposeAt i r.controls, log := r.log ++ [Op.dispose i] }

/-- Modelled from the spec: `Object3D.add` of three.js is not under `src/`.
It detaches the object from its current parent and appends it to the
children; an undefined argument is reported on the console and ignored. The
camera is the only parent the ship ever has. -/
def cameraAdd (r : Rig) : Rig :=
  match r.ship with
  | none => r
  | some o => { r with cameraChildren := r.cameraChildren.erase o ++ [o] }

/-- Modelled from the spec: `Object3D.remove` of three.js is not under `src/`.
It removes the object from the children when it is one of them. -/
def cameraRemove (r : Rig) : Rig :=
  match r.ship with
  | none => r
  | some o => { r with cameraChildren := r.cameraChildren.erase o }

/-- Function `view()` (lines 176-194): a fresh camera and the controller selected by
`flycontrol`. -/
def view (r : Rig) : Rig :=
  let r1 := { r with cameraChildren := [] }
  if r1.flycontrol == false then newControls ControlKind.orbit r1
  else newControls ControlKind.fly r1

/-- Success callback of `loadShip` (lines 82-93): `ship = gltf.scene` (the
node `o`) and `camera.add(ship)`. -/
def shipLoaded (o : Nat) (r : Rig) : Rig :=
  cameraAdd { r with ship := some o }

/-- The keydown listener registered by `changeView` (lines 233-253). -/
def onKeydown (r : Rig) (key : String) : Rig :=
  if key = "Enter" then
    let r1 := { r with flycontrol := !r.flycontrol }
    let r2 := disposeControls r1
    if r2.flycontrol then cameraAdd (newControls ControlKind.fly r2)
    else newControls ControlKind.orbit (cameraRemove r2)
  else r

/-- The listener applied to a sequence of keydown events, oldest first. -/
def onKeydowns (r : Rig) (keys : List String) : Rig :=
  keys.foldl onKeydown r

/-- The rig once `view()` has run and the ship model `o` has been attached. -/
def startRig (o : Nat) : Rig := shipLoaded o (view initialRig)

/-- The rig once `view()` has run: without the ship (`none`, the model is
still loading or failed to load) or with the ship node `o` attached. -/
def rigAfterView (ship : Option Nat) : Rig :=
  match ship with
  | none => view initialRig
  | some o => startRig o

/-- Class of the controller stored in `camcontrols`. -/
def activeKind (r : Rig) : Option ControlKind :=
  match r.camcontrols with
  | none => none
  | some i => (r.controls.get? i).map Control.kind

/-- Whether `ship` is a child of `camera`. -/
def shipAttached (r : Rig) : Bool :=
  match r.ship with
  | none => false
  | some o => r.cameraChildren.contains o

/-- Indices, counted from `i`, of the controllers of the list that are not
disposed. -/
def undisposedFrom : Nat → List Control → List Nat
  | _, [] => []
  | i, c :: cs => if c.disposed then undisposedFrom (i + 1) cs else i :: undisposedFrom (i + 1) cs

/-- Indices of the controllers constructed so far that are not disposed. -/
def undisposed (r : Rig) : List Nat := undisposedFrom 0 r.controls

/-- One controller operation applied to the list of live controllers. -/
def liveStep (live : List Nat) (op : Op) : List Nat :=
  match op with
  | Op.construct i _ => live ++ [i]
  | Op.dispose i => live.filter (fun j => j != i)

/-- Controllers live after a sequence of operations: constructed and not yet
disposed. -/
def liveAfter (ops : List Op) : List Nat := ops.foldl liveStep []

/-- The controller invariant: every controller constructed so far is disposed
except the last one, which `camcontrols` holds and whose class agrees with
`flycontrol`; and the operation log never had two live controllers. -/
structure CtrlInv (r : Rig) : Prop where
  shape : ∃ cs : List Control,
    r.controls = cs ++ [{ kind := if r.flycontrol then ControlKind.fly else ControlKind.orbit,
                          disposed := false }] ∧
    (∀ c ∈ cs, c.disposed = true) ∧ r.camcontrols = some cs.length ∧
    liveAfter r.log = [cs.length]
  peak : ∀ j, (liveAfter (r.log.take j)).length ≤ 1

/-- The ship invariant: the ship is loaded, and it is the camera's only child
in flight mode and not a child in orbit mode. -/
def ShipInv (o : Nat) (r : Rig) : Prop :=
  r.ship = some o ∧ r.cameraChildren = if r.flycontrol then [o] else []

/-! ## Numbers -/

/-- A JavaScript number: a value of the exact field `ν`, or `NaN`. -/
inductive JSNum (ν : Type) where
  | num (x : ν)
  | NaN
deriving DecidableEq, Repr

namespace JSNum

variable {ν : Type}

/-- A unary numeric function: `NaN` in, `NaN` out. -/
def lift1 (f : ν → ν) : JSNum ν → JSNum ν
  | num a => num (f a)
  | NaN => NaN

/-- A binary arithmetic operator: `NaN` as soon as one operand is `NaN`. -/
def lift2 (f : ν → ν → ν) : JSNum ν → JSNum ν → JSNum ν
  | num a, num b => num (f a b)
  | _, _ => NaN

instance [Add ν] : Add (JSNum ν) := ⟨lift2 (fun a b => a + b)⟩
instance [Sub ν] : Sub (JSNum ν) := ⟨lift2 (fun a b => a - b)⟩
instance [Mul ν] : Mul (JSNum ν) := ⟨lift2 (fun a b => a * b)⟩
instance [Div ν] : Div (JSNum ν) := ⟨lift2 (fun a b => a / b)⟩

/-- Reading a numeric property of an object: an absent property is
`undefined`, which arithmetic converts to `NaN`. -/
def ofProperty : Option ν → JSNum ν
  | some x => num x
  | none => NaN

end JSNum

open JSNum (num)

/-- The members of the JavaScript `Math` object that `main.js` and the
ellipse sampling use. -/
structure JSMath (ν : Type) where
  cos : ν → ν
  sin : ν → ν
  PI : ν

/-- A point or Euler triple `(x, y, z)`. -/
structure Vec3 (ν : Type) where
  x : JSNum ν
  y : JSNum ν
  z : JSNum ν
deriving DecidableEq, Repr

/-- A point `(x, y)` of an orbit polyline. -/
structure Vec2 (ν : Type) where
  x : JSNum ν
  y : JSNum ν
deriving DecidableEq, Repr

/-! ## Body catalog -/

/-- An entry of the `SolarSystem` table. A property the entry does not have
is `none`. -/
structure CelestialBody (ν : Type) where
  name : String
  rad : Option ν
  orbitSpeed : Option ν
  perihelio : Option ν
  afelio : Option ν
deriving DecidableEq, Repr

/-- The table `SolarSystem` of lines 15-77. -/
def SolarSystem (ν : Type) [Field ν] : List (CelestialBody ν) :=
  [ { name := "sun", rad := some 695, orbitSpeed := some 0,
      perihelio := none, afelio := none },
    { name := "mercury", rad := some (2.4397 * 2), orbitSpeed := some 4.787,
      perihelio := some (46 * 3), afelio := some (69.8 * 3) },
    { name := "venus", rad := some (6.0518 * 2), orbitSpeed := some 3.502,
      perihelio := some (107 * 1.2), afelio := some (109 * 1.2) },
    { name := "earth", rad := some (6.37814 * 2), orbitSpeed := some 2.978,
      perihelio := some (147 / 1.3), afelio := some (152 / 1.3) },
    { name := "mars", rad := some (3.3972 * 2), orbitSpeed := some 2.4077,
      perihelio := some (206 / 1.9), afelio := some (249 / 1.9) },
    { name := "jupiter", rad := some 71.492, orbitSpeed := some 1.307,
      perihelio := some (741 / 6), afelio := some (817 / 6) },
    { name := "saturn", rad := some 60.268, orbitSpeed := some 0.969,
      perihelio := some (1350 / 10), afelio := some (1510 / 10) },
    { name := "uranus", rad := some 25.559, orbitSpeed := some 0.681,
      perihelio := some (2750 / 18), afelio := some (3000 / 18) },
    { name := "neptune", rad := some 24.746, orbitSpeed := some 0.543,
      perihelio := some (4450 / 25), afelio := some (4550 / 25) } ]

/-! ## Scene objects and scene globals -/

/-- The sun mesh built by `createSun`. -/
structure Star (ν : Type) where
  rad : JSNum ν
  dist : JSNum ν
  speed : JSNum ν
  position : Vec3 ν
  rotation : Vec3 ν
deriving DecidableEq, Repr

/-- A planet mesh built by `createPlanets`: sphere radius, texture, transform,
the `userData` record (`dist`, `speed`, `f1`, `f2`) and its child pivots
(indices into `Moons`). -/
structure PlanetMesh (ν : Type) where
  rad : JSNum ν
  texturePath : String
  rotation : Vec3 ν
  position : Vec3 ν
  dist : JSNum ν
  speed : JSNum ν
  f1 : JSNum ν
  f2 : JSNum ν
  children : List Nat
deriving DecidableEq, Repr

/-- The arguments `createPlanets` gives to `new THREE.EllipseCurve`: centre
and the two radii. The other arguments keep their defaults (start angle 0,
end angle 2π, counter-clockwise, no rotation). -/
structure EllipseCurve (ν : Type) where
  aX : JSNum ν
  aY : JSNum ν
  xRadius : JSNum ν
  yRadius : JSNum ν
deriving DecidableEq, Repr

/-- The invisible rotation anchor of a moon: Euler rotation, parent planet
(index into `Planets`) and children (indices into `Moons`). -/
structure Pivot (ν : Type) where
  rotation : Vec3 ν
  parent : Option Nat
  children : List Nat
deriving DecidableEq, Repr

/-- A moon mesh: sphere radius, colour, the `userData` record (`dist`,
`speed`), local position and parent pivot (index into `Moons`). -/
structure MoonMesh (ν : Type) where
  rad : JSNum ν
  col : Nat
  dist : JSNum ν
  speed : JSNum ν
  position : Vec3 ν
  parent : Option Nat
deriving DecidableEq, Repr

/-- An element `{ moon, pivot }` of the global `Moons`. -/
structure MoonItem (ν : Type) where
  moon : MoonMesh ν
  pivot : Pivot ν
deriving DecidableEq, Repr

/-- A child of `scene`, by reference. -/
inductive SceneNode where
  | star (i : Nat)
  | sunLight
  | planet (i : Nat)
  | orbit (i : Nat)
deriving DecidableEq, Repr

/-- The scene globals of `main.js`: `distance`, `Planets`, `Moons`, `t0`, and
the contents of `scene` (stars, orbit polylines, child list). -/
structure World (ν : Type) where
  distance : JSNum ν
  Planets : List (PlanetMesh ν)
  Moons : List (MoonItem ν)
  t0 : JSNum ν
  stars : List (Star ν)
  orbits : List (List (Vec2 ν))
  sceneChildren : List SceneNode
deriving DecidableEq, Repr

section Scene

variable {ν : Type} [Field ν]

/-- Globals as initialised at lines 8-11, `now` being the value of
`Date.now()` at load, with an empty scene. -/
def initialWorld (now : ν) : World ν :=
  { distance := num 3, Planets := [], Moons := [], t0 := num now,
    stars := [], orbits := [], sceneChildren := [] }

/-- Line 12: `accglobal = 0.001`. -/
def accglobal : JSNum ν := num 0.001

/-- Function `Math.cos` on a JavaScript number. -/
def JSMath.jsCos (M : JSMath ν) (a : JSNum ν) : JSNum ν := JSNum.lift1 M.cos a

/-- Function `Math.sin` on a JavaScript number. -/
def JSMath.jsSin (M : JSMath ν) (a : JSNum ν) : JSNum ν := JSNum.lift1 M.sin a

/-- Function `createSun(distance, rad)` (lines 101-119). -/
def createSun (M : JSMath ν) (distance rad : JSNum ν) (w : World ν) : World ν :=
  let star : Star ν :=
    { rad := rad, dist := distance, speed := num 0,
      position := ⟨distance, num 0, num 0⟩,
      rotation := ⟨num M.PI / num 2, num 0, num 0⟩ }
  { w with
    stars := w.stars ++ [star]
    sceneChildren := w.sceneChildren ++ [SceneNode.star w.stars.length, SceneNode.sunLight] }

/-- Modelled from the spec: `EllipseCurve.getPoint` of three.js is not under
`src/`. With the default angles the curve spans `deltaAngle = 2π` from start
angle 0, so the point at parameter `t` is
`(aX + xRadius * cos(t * 2π), aY + yRadius * sin(t * 2π))`. -/
def EllipseCurve.getPoint (M : JSMath ν) (c : EllipseCurve ν) (t : JSNum ν) : Vec2 ν :=
  let twoPi := num M.PI * num 2
  let angle := num 0 + t * twoPi
  { x := c.aX + c.xRadius * M.jsCos angle, y := c.aY + c.yRadius * M.jsSin angle }

/-- Modelled from the spec: `Curve.getPoints` of three.js is not under `src/`.
It samples `getPoint(d / divisions)` for `d = 0, ..., divisions`. -/
def EllipseCurve.getPoints (M : JSMath ν) (c : EllipseCurve ν) (divisions : Nat) :
    List (Vec2 ν) :=
  (List.range (divisions + 1)).map
    (fun d : Nat => c.getPoint M (num (d : ν) / num (divisions : ν)))

/-- The curve of line 145: `new THREE.EllipseCurve(0, 0, distance * f1, distance * f2)`. -/
def orbitCurve (distance f1 f2 : JSNum ν) : EllipseCurve ν :=
  { aX := num 0, aY := num 0, xRadius := distance * f1, yRadius := distance * f2 }

/-- Function `createPlanets(distance, col, rad, speed = 0.01, f1 = 1, f2 = 1, texturePath)`
(lines 121-152). An argument that is `none` is omitted and takes its default. -/
def createPlanets (M : JSMath ν) (distance : JSNum ν) (col : Nat) (rad : JSNum ν)
    (speed f1 f2 : Option (JSNum ν)) (texturePath : String) (w : World ν) : World ν :=
  let speed := speed.getD (num 0.01)
  let f1 := f1.getD (num 1)
  let f2 := f2.getD (num 1)
  let _ := col
  let planet : PlanetMesh ν :=
    { rad := rad, texturePath := texturePath,
      rotation := ⟨num M.PI / num 2, num 0, num 0⟩,
      position := ⟨num 0, num 0, num 0⟩,
      dist := distance, speed := speed, f1 := f1, f2 := f2, children := [] }
  let points := (orbitCurve distance f1 f2).getPoints M 100
  { w with
    Planets := w.Planets ++ [planet]
    orbits := w.orbits ++ [points]
    sceneChildren :=
      w.sceneChildren ++ [SceneNode.planet w.Planets.length, SceneNode.orbit w.orbits.length] }

/-- The planet created last, as returned by `createPlanets`. -/
def lastPlanet (w : World ν) : Option (PlanetMesh ν) := w.Planets.getLast?

/-- The expression `Planets[k]`: a reference to the planet, or undefined. -/
def planetAt (w : World ν) (k : Nat) : Option Nat :=
  if k < w.Planets.length then some k else none

/-- Appends pivot `id` to the children of the planet at index `k`. -/
def addPivot (id : Nat) : Nat → List (PlanetMesh ν) → List (PlanetMesh ν)
  | _, [] => []
  | 0, p :: ps => { p with children := p.children ++ [id] } :: ps
  | k + 1, p :: ps => p :: addPivot id k ps

/-- Function `createMoon(planet, rad, dist, speed = 0.01, col = 0xaaaaaa, angle = 0)`
(lines 154-174). `planet.add(pivot)` throws when `planet` is undefined. The
new pivot and moon both get the index of the new `Moons` element. -/
def createMoon (planet : Option Nat) (rad dist : JSNum ν)
    (speed : Option (JSNum ν)) (col : Option Nat) (angle : Option (JSNum ν))
    (w : World ν) : Except String (World ν) :=
  match planet with
  | none => Except.error "TypeError: planet is undefined"
  | some k =>
    let id := w.Moons.length
    let pivot : Pivot ν :=
      { rotation := ⟨angle.getD (num 0), num 0, num 0⟩, parent := some k, children := [id] }
    let moon : MoonMesh ν :=
      { rad := rad, col := col.getD 0xaaaaaa, dist := dist, speed := speed.getD (num 0.01),
        position := ⟨dist, num 0, num 0⟩, parent := some id }
    Except.ok { w with
      Planets := addPivot id k w.Planets
      Moons := w.Moons ++ [{ moon := moon, pivot := pivot }] }

/-- Body of the catalog loop of `init` (lines 269-281). -/
def initBody (M : JSMath ν) (w : World ν) (celestialBody : CelestialBody ν) : World ν :=
  if celestialBody.name == "sun" then
    createSun M (num 0) (JSNum.ofProperty celestialBody.rad / num 30) w
  else
    let w1 := createPlanets M (w.distance * num 10) 0xff0000
      (JSNum.ofProperty celestialBody.rad / num 5)
      (some (JSNum.ofProperty celestialBody.orbitSpeed / num 30))
      (some (JSNum.ofProperty celestialBody.afelio / num 120))
      (some (JSNum.ofProperty celestialBody.perihelio / num 120))
      ("./planetsTextures/" ++ celestialBody.name ++ ".jpg") w
    { w1 with distance := w1.distance + num 3 }

/-- The catalog loop of `init` (line 268): `for (const celestialBody of catalog)`. -/
def initLoop (M : JSMath ν) (catalog : List (CelestialBody ν)) (w : World ν) : World ν :=
  catalog.foldl (initBody M) w

/-- The eleven `createMoon` calls of `init` (lines 284-304). -/
def initMoons (w : World ν) : Except String (World ν) := do
  let w ← createMoon (planetAt w 2) (num 1) (num 8) (some (num 0.01)) (some 0xaaaaaa) none w
  let w ← createMoon (planetAt w 3) (num 0.5) (num 3) (some (num 0.05)) (some 0x888888) none w
  let w ← createMoon (planetAt w 3) (num 0.3) (num 5) (some (num 0.03)) (some 0xcccccc) none w
  let w ← createMoon (planetAt w 4) (num 1.8) (num 20) (some (num 0.02)) (some 0xffaa00) none w
  let w ← createMoon (planetAt w 4) (num 1.5) (num 25) (some (num 0.015)) (some 0xaaddff) none w
  let w ← createMoon (planetAt w 4) (num 2.0) (num 30) (some (num 0.01)) (some 0xddddaa) none w
  let w ← createMoon (planetAt w 4) (num 1.7) (num 35) (some (num 0.008)) (some 0x888888) none w
  let w ← createMoon (planetAt w 5) (num 2.5) (num 20) (some (num 0.01)) (some 0xffcc88) none w
  let w ← createMoon (planetAt w 5) (num 1.0) (num 15) (some (num 0.015)) (some 0xffffff) none w
  let w ← createMoon (planetAt w 6) (num 0.8) (num 10) (some (num 0.02)) (some 0x9999ff) none w
  createMoon (planetAt w 7) (num 1.2) (num 12) (some (num 0.018)) (some 0x8888ff) none w

/-- Scene construction of `init` (lines 268-304): the catalog loop, then the moons. -/
def initScene (M : JSMath ν) (catalog : List (CelestialBody ν)) (w : World ν) :
    Except String (World ν) :=
  initMoons (initLoop M catalog w)

/-! ## Animation: `animate` -/

/-- Line 323: `timestamp = (Date.now() - t0) * accglobal`. -/
def timestamp (now : JSNum ν) (w : World ν) : JSNum ν := (now - w.t0) * accglobal

/-- Body of the planet loop of `animate` (lines 326-333). -/
def animatePlanet (M : JSMath ν) (ts : JSNum ν) (planet : PlanetMesh ν) : PlanetMesh ν :=
  let x := M.jsCos (ts * planet.speed) * planet.f1 * planet.dist
  let y := M.jsSin (ts * planet.speed) * planet.f2 * planet.dist
  { planet with position := { planet.position with x := x, y := y } }

/-- Body of the moon loop of `animate` (lines 337-339):
`pivot.rotation.y += moon.userData.speed`. -/
def animateMoon (item : MoonItem ν) : MoonItem ν :=
  { item with
    pivot := { item.pivot with
      rotation := { item.pivot.rotation with y := item.pivot.rotation.y + item.moon.speed } } }

/-- One run of `animate` (lines 318-344) on the scene globals. `now` is the
value of `Date.now()` and `delta` that of `clock.getDelta()`; `delta` only
goes to `camcontrols.update`, which moves the camera. -/
def animate (M : JSMath ν) (w : World ν) (frame : JSNum ν × JSNum ν) : World ν :=
  let _delta := frame.2
  let ts := timestamp frame.1 w
  { w with
    Planets := w.Planets.map (animatePlanet M ts)
    Moons := w.Moons.map animateMoon }

/-- Successive runs of `animate`, one per frame, oldest first. -/
def animateFrames (M : JSMath ν) (w : World ν) (frames : List (JSNum ν × JSNum ν)) : World ν :=
  frames.foldl (animate M) w

end Scene

/-! ## Notions used to state the properties -/

/-- The comparison `a < b` of JavaScript: false as soon as one side is `NaN`. -/
def JSNum.lt {ν : Type} [LT ν] : JSNum ν → JSNum ν → Prop
  | JSNum.num a, JSNum.num b => a < b
  | _, _ => False

/-- The catalog entries that the loop of `init` turns into planets: those
whose name is not `sun`, in catalog order. -/
def planetEntries {ν : Type} (catalog : List (CelestialBody ν)) : List (CelestialBody ν) :=
  catalog.filter (fun b => !(b.name == "sun"))

/-- The catalog entries that the loop of `init` turns into stars. -/
def starEntries {ν : Type} (catalog : List (CelestialBody ν)) : List (CelestialBody ν) :=
  catalog.filter (fun b => b.name == "sun")

/-- The planet mesh that the loop body of `init` builds from a catalog entry
when the global `distance` makes `createPlanets` receive `dist`. -/
def entryPlanet {ν : Type} [Field ν] (M : JSMath ν) (dist : JSNum ν)
    (b : CelestialBody ν) : PlanetMesh ν :=
  { rad := JSNum.ofProperty b.rad / num 5,
    texturePath := "./planetsTextures/" ++ b.name ++ ".jpg",
    rotation := ⟨num M.PI / num 2, num 0, num 0⟩,
    position := ⟨num 0, num 0, num 0⟩,
    dist := dist,
    speed := JSNum.ofProperty b.orbitSpeed / num 30,
    f1 := JSNum.ofProperty b.afelio / num 120,
    f2 := JSNum.ofProperty b.perihelio / num 120,
    children := [] }

/-- The planets built from successive planet entries when the global
`distance` starts at `q`: the first gets `q * 10`, the next `(q + 3) * 10`, ... -/
def placed {ν : Type} [Field ν] (M : JSMath ν) : ν → List (CelestialBody ν) → List (PlanetMesh ν)
  | _, [] => []
  | q, b :: bs => entryPlanet M (num (q * 10)) b :: placed M (q + 3) bs

/-- Semi-major distance of a catalog entry, `(perihelio + afelio) / 2`, when
the entry has both values. -/
def semiMajor {ν : Type} [Field ν] (b : CelestialBody ν) : Option ν :=
  match b.perihelio, b.afelio with
  | some p, some a => some ((p + a) / 2)
  | _, _ => none

/-- Entry `a` lies strictly inside entry `b`: both have a semi-major distance
and that of `a` is the smaller. -/
def outward (a b : CelestialBody ℚ) : Bool :=
  match semiMajor a, semiMajor b with
  | some x, some y => decide (x < y)
  | _, _ => false

/-- The catalog invariant as the specification words it: exactly one entry
has `orbitSpeed` 0, it is the first entry, and the other entries are in
strictly increasing order of semi-major distance. -/
def CatalogInvariant (catalog : List (CelestialBody ℚ)) : Prop :=
  (catalog.filter (fun b => b.orbitSpeed == some 0)).length = 1 ∧
  catalog.head?.bind CelestialBody.orbitSpeed = some 0 ∧
  (catalog.filter (fun b => !(b.orbitSpeed == some 0))).Pairwise (fun a b => outward a b = true)

/-- A star entry in the sense of the specification: named `sun`, or with
`orbitSpeed` 0. -/
def isStarEntry (b : CelestialBody ℚ) : Bool :=
  b.name == "sun" || b.orbitSpeed == some 0

/-- A non-star entry that lacks `perihelio` or `afelio`. -/
def lacksFactors (b : CelestialBody ℚ) : Bool :=
  !(isStarEntry b) && (b.perihelio.isNone || b.afelio.isNone)

/-- An invalid catalog in the sense of the specification: a second star
entry, or a non-star entry without its shape factors. -/
def invalidCatalog (catalog : List (CelestialBody ℚ)) : Bool :=
  decide (2 ≤ (catalog.filter isStarEntry).length) || catalog.any lacksFactors

/-- A planet entry that has neither `perihelio` nor `afelio`. -/
def ceresEntry : CelestialBody ℚ :=
  { name := "ceres", rad := some 0.47, orbitSpeed := some 1.79,
    perihelio := none, afelio := none }

/-- The table `SolarSystem` followed by a second sun entry and by `ceresEntry`. -/
def brokenCatalog : List (CelestialBody ℚ) :=
  SolarSystem ℚ ++
    [ { name := "sun", rad := some 695, orbitSpeed := some 0,
        perihelio := none, afelio := none },
      ceresEntry ]

/-! ## Camera rig: proofs -/

theorem disposeAt_length_append (cs : List Control) (c : Control) :
    disposeAt cs.length (cs ++ [c]) = cs ++ [{ c with disposed := true }] := by
  induction cs with
  | nil => rfl
  | cons a as ih => simp [disposeAt, ih]

theorem undisposedFrom_append (cs ds : List Control) (i : Nat) :
    undisposedFrom i (cs ++ ds) = undisposedFrom i cs ++ undisposedFrom (i + cs.length) ds := by
  induction cs generalizing i with
  | nil => simp [undisposedFrom]
  | cons a as ih =>
    have h : i + 1 + as.length = i + (as.length + 1) := by omega
    have ih1 := ih (i + 1)
    rw [h] at ih1
    show (if a.disposed then undisposedFrom (i + 1) (as ++ ds)
        else i :: undisposedFrom (i + 1) (as ++ ds))
      = (if a.disposed then undisposedFrom (i + 1) as else i :: undisposedFrom (i + 1) as)
        ++ undisposedFrom (i + (as.length + 1)) ds
    rw [ih1]
    split <;> simp

theorem undisposedFrom_all_disposed (cs : List Control) (i : Nat)
    (h : ∀ c ∈ cs, c.disposed = true) : undisposedFrom i cs = [] := by
  induction cs generalizing i with
  | nil => rfl
  | cons a as ih =>
    have ha : a.disposed = true := h a (List.mem_cons_self _ _)
    simp [undisposedFrom, ha, ih (i + 1) (fun c hc => h c (List.mem_cons_of_mem _ hc))]

theorem liveAfter_append_singleton (ops : List Op) (op : Op) :
    liveAfter (ops ++ [op]) = liveStep (liveAfter ops) op := by
  simp [liveAfter, List.foldl_append]

theorem peak_append_singleton (ops : List Op) (op : Op)
    (h : ∀ j, (liveAfter (ops.take j)).length ≤ 1)
    (hop : (liveStep (liveAfter ops) op).length ≤ 1) :
    ∀ j, (liveAfter ((ops ++ [op]).take j)).length ≤ 1 := by
  intro j
  by_cases hj : j ≤ ops.length
  · rw [List.take_append_of_le_length hj]
    exact h j
  · rw [List.take_of_length_le (by simp; omega), liveAfter_append_singleton]
    exact hop

theorem ctrlInv_view : CtrlInv (view initialRig) := by
  refine ⟨⟨[], ?_, ?_, ?_, ?_⟩, ?_⟩
  · rfl
  · simp
  · rfl
  · rfl
  · intro j
    match j with
    | 0 => decide
    | j + 1 => simp [view, initialRig, newControls, liveAfter, liveStep]

theorem ctrlInv_cameraAdd {r : Rig} (h : CtrlInv r) : CtrlInv (cameraAdd r) := by
  unfold cameraAdd
  split
  · exact h
  · exact ⟨h.shape, h.peak⟩

theorem ctrlInv_cameraRemove {r : Rig} (h : CtrlInv r) : CtrlInv (cameraRemove r) := by
  unfold cameraRemove
  split
  · exact h
  · exact ⟨h.shape, h.peak⟩

theorem newControls_cameraRemove (k : ControlKind) (r : Rig) :
    newControls k (cameraRemove r) = cameraRemove (newControls k r) := by
  obtain ⟨f, cs, cam, ch, ship, log⟩ := r
  cases ship <;> rfl

theorem ctrlInv_shipLoaded {r : Rig} (o : Nat) (h : CtrlInv r) : CtrlInv (shipLoaded o r) :=
  ctrlInv_cameraAdd (r := { r with ship := some o }) ⟨h.shape, h.peak⟩

/-- Disposing the active controller and constructing one of class `k`, with
the flag `b` as the new `flycontrol`. -/
theorem ctrlInv_swap {r : Rig} (h : CtrlInv r) (b : Bool) :
    CtrlInv (newControls (if b then ControlKind.fly else ControlKind.orbit)
      (disposeControls { r with flycontrol := b })) := by
  obtain ⟨⟨cs, hc, hd, hcam, hlive⟩, hpeak⟩ := h
  have hdisp : disposeControls { r with flycontrol := b } =
      { r with flycontrol := b
               controls := cs ++ [{ kind := if r.flycontrol then ControlKind.fly
                                            else ControlKind.orbit, disposed := true }]
               log := r.log ++ [Op.dispose cs.length] } := by
    simp [disposeControls, hcam, hc, disposeAt_length_append]
  rw [hdisp]
  have hlive1 : liveAfter (r.log ++ [Op.dispose cs.length]) = [] := by
    rw [liveAfter_append_singleton, hlive]; simp [liveStep]
  have hpeak1 := peak_append_singleton r.log (Op.dispose cs.length) hpeak
    (by rw [← liveAfter_append_singleton, hlive1]; simp)
  refine ⟨⟨cs ++ [{ kind := if r.flycontrol then ControlKind.fly else ControlKind.orbit,
                    disposed := true }], ?_, ?_, ?_, ?_⟩, ?_⟩
  · simp [newControls]
  · intro c hcmem
    rcases List.mem_append.1 hcmem with h1 | h1
    · exact hd c h1
    · simp at h1; simp [h1]
  · simp [newControls]
  · simp only [newControls]
    rw [liveAfter_append_singleton, hlive1]; simp [liveStep]
  · simp only [newControls]
    apply peak_append_singleton _ _ hpeak1
    rw [hlive1]; simp [liveStep]

theorem ctrlInv_onKeydown {r : Rig} (h : CtrlInv r) (key : String) :
    CtrlInv (onKeydown r key) := by
  unfold onKeydown
  split
  · have hsw := ctrlInv_swap h (!r.flycontrol)
    have hfly : (disposeControls { r with flycontrol := !r.flycontrol }).flycontrol
        = !r.flycontrol := by
      unfold disposeControls; split <;> rfl
    simp only [hfly]
    cases hb : r.flycontrol
    · simp only [hb, Bool.not_false, if_true] at hsw ⊢
      exact ctrlInv_cameraAdd hsw
    · simp only [hb, Bool.not_true] at hsw ⊢
      simp only [Bool.false_eq_true, if_false] at hsw ⊢
      rw [newControls_cameraRemove]
      exact ctrlInv_cameraRemove hsw
  · exact h

theorem ctrlInv_onKeydowns {r : Rig} (h : CtrlInv r) (keys : List String) :
    CtrlInv (onKeydowns r keys) := by
  induction keys generalizing r with
  | nil => exact h
  | cons k ks ih => exact ih (ctrlInv_onKeydown h k)

theorem ctrlInv_rigAfterView (ship : Option Nat) : CtrlInv (rigAfterView ship) := by
  cases ship with
  | none => exact ctrlInv_view
  | some o => exact ctrlInv_shipLoaded o ctrlInv_view

theorem onKeydown_log_enter (r : Rig) (i : Nat) (h : r.camcontrols = some i)
    (hlen : r.controls.length = i + 1) :
    (onKeydown r "Enter").log = r.log ++ [Op.dispose i,
      Op.construct (i + 1) (if r.flycontrol then ControlKind.orbit else ControlKind.fly)] := by
  obtain ⟨f, cs, cam, ch, ship, log⟩ := r
  simp only at h hlen
  subst h
  have hl : (disposeAt i cs).length = i + 1 := by
    rw [← hlen]
    clear hlen
    induction cs generalizing i with
    | nil => simp [disposeAt]
    | cons a as ih => cases i <;> simp [disposeAt, ih]
  cases f <;> cases ship <;>
    simp [onKeydown, disposeControls, newControls, cameraAdd, cameraRemove, hl]

/-- Claim C2. Starting from the rig that `view()` leaves (with or without the
ship loaded), after every finite sequence of keydown events: `camcontrols`
holds a controller `i` which is the only undisposed controller among those
constructed so far; the next Enter event performs `dispose i` and only then
constructs controller `i + 1`; and at no point of the operation history were
two controllers live at once. -/
theorem controller_swap_releases_first (ship : Option Nat) (keys : List String) :
    (∃ i, (onKeydowns (rigAfterView ship) keys).camcontrols = some i ∧
      undisposed (onKeydowns (rigAfterView ship) keys) = [i] ∧
      liveAfter (onKeydowns (rigAfterView ship) keys).log = [i] ∧
      (onKeydown (onKeydowns (rigAfterView ship) keys) "Enter").log =
        (onKeydowns (rigAfterView ship) keys).log ++
          [Op.dispose i, Op.construct (i + 1)
            (if (onKeydowns (rigAfterView ship) keys).flycontrol then ControlKind.orbit
             else ControlKind.fly)]) ∧
    (∀ j, (liveAfter ((onKeydowns (rigAfterView ship) keys).log.take j)).length ≤ 1) := by
  have h := ctrlInv_onKeydowns (ctrlInv_rigAfterView ship) keys
  obtain ⟨⟨cs, hc, hd, hcam, hlive⟩, hpeak⟩ := h
  refine ⟨⟨cs.length, hcam, ?_, hlive, ?_⟩, hpeak⟩
  · unfold undisposed
    rw [hc, undisposedFrom_append, undisposedFrom_all_disposed cs 0 hd]
    simp [undisposedFrom]
  · exact onKeydown_log_enter _ _ hcam (by rw [hc]; simp)

/-! ### Mode and ship attachment -/

theorem onKeydown_other (r : Rig) (key : String) (h : key ≠ "Enter") : onKeydown r key = r := by
  simp [onKeydown, h]

theorem shipInv_start (o : Nat) : ShipInv o (startRig o) := by
  simp [ShipInv, startRig, shipLoaded, view, initialRig, newControls, cameraAdd]

theorem onKeydown_enter_flycontrol (r : Rig) :
    (onKeydown r "Enter").flycontrol = !r.flycontrol := by
  obtain ⟨f, cs, cam, ch, ship, log⟩ := r
  cases f <;> cases ship <;> cases cam <;>
    simp [onKeydown, disposeControls, newControls, cameraAdd, cameraRemove]

theorem shipInv_onKeydown {o : Nat} {r : Rig} (h : ShipInv o r) (key : String) :
    ShipInv o (onKeydown r key) := by
  by_cases hk : key = "Enter"
  · subst hk
    obtain ⟨f, cs, cam, ch, ship, log⟩ := r
    obtain ⟨h1, h2⟩ := h
    simp only at h1 h2
    subst h1
    cases f <;> cases cam <;> simp_all [ShipInv, onKeydown, disposeControls, newControls,
      cameraAdd, cameraRemove]
  · rw [onKeydown_other r key hk]; exact h

theorem shipInv_onKeydowns {o : Nat} {r : Rig} (h : ShipInv o r) (keys : List String) :
    ShipInv o (onKeydowns r keys) := by
  induction keys generalizing r with
  | nil => exact h
  | cons k ks ih => exact ih (shipInv_onKeydown h k)

theorem onKeydowns_flycontrol (r : Rig) (keys : List String) :
    (onKeydowns r keys).flycontrol = true ↔
      (r.flycontrol = true ↔ Even (keys.count "Enter")) := by
  induction keys generalizing r with
  | nil => simp [onKeydowns]
  | cons k ks ih =>
    show (onKeydowns (onKeydown r k) ks).flycontrol = true ↔ _
    rw [ih]
    by_cases hk : k = "Enter"
    · subst hk
      rw [onKeydown_enter_flycontrol, List.count_cons_self, Nat.even_add_one]
      cases r.flycontrol <;> simp
    · rw [onKeydown_other r k hk, List.count_cons_of_ne (Ne.symm hk)]

theorem shipAttached_of_inv {o : Nat} {r : Rig} (h : ShipInv o r) :
    shipAttached r = r.flycontrol := by
  obtain ⟨h1, h2⟩ := h
  unfold shipAttached
  rw [h1]
  simp only [h2]
  cases r.flycontrol <;> simp

theorem activeKind_of_inv {r : Rig} (h : CtrlInv r) :
    activeKind r = some (if r.flycontrol then ControlKind.fly else ControlKind.orbit) := by
  obtain ⟨⟨cs, hc, _, hcam, _⟩, _⟩ := h
  unfold activeKind
  rw [hcam]
  simp [hc]

/-- Claim C1. With the ship `o` loaded and attached: `view()` leaves flight
mode with a fly controller; one Enter gives orbit mode with the ship detached;
a second Enter gives flight mode with the ship attached again. After any
sequence of keydown events the mode is flight iff the number of Enter events
so far is even, the ship is a child of the camera iff the mode is flight, and
the active controller has the class of the mode; in particular after `n`
Enter events the mode is flight iff `n` is even. A keydown with another key
leaves the whole rig unchanged. -/
theorem camera_mode_machine (o : Nat) (n : Nat) (keys : List String) (r : Rig)
    (key : String) :
    ((view initialRig).flycontrol = true ∧ activeKind (view initialRig) = some ControlKind.fly ∧
      (startRig o).flycontrol = true ∧ shipAttached (startRig o) = true) ∧
    ((onKeydowns (startRig o) ["Enter"]).flycontrol = false ∧
      activeKind (onKeydowns (startRig o) ["Enter"]) = some ControlKind.orbit ∧
      shipAttached (onKeydowns (startRig o) ["Enter"]) = false) ∧
    ((onKeydowns (startRig o) ["Enter", "Enter"]).flycontrol = true ∧
      activeKind (onKeydowns (startRig o) ["Enter", "Enter"]) = some ControlKind.fly ∧
      shipAttached (onKeydowns (startRig o) ["Enter", "Enter"]) = true) ∧
    (((onKeydowns (startRig o) keys).flycontrol = true ↔ Even (keys.count "Enter")) ∧
      shipAttached (onKeydowns (startRig o) keys) = (onKeydowns (startRig o) keys).flycontrol ∧
      activeKind (onKeydowns (startRig o) keys) =
        some (if (onKeydowns (startRig o) keys).flycontrol then ControlKind.fly
              else ControlKind.orbit)) ∧
    (((onKeydowns (startRig o) (List.replicate n "Enter")).flycontrol = true ↔ Even n) ∧
      shipAttached (onKeydowns (startRig o) (List.replicate n "Enter"))
        = (onKeydowns (startRig o) (List.replicate n "Enter")).flycontrol) ∧
    (key ≠ "Enter" → onKeydown r key = r ∧ onKeydowns r (keys ++ [key]) = onKeydowns r keys) := by
  have gen : ∀ ks : List String,
      ((onKeydowns (startRig o) ks).flycontrol = true ↔ Even (ks.count "Enter")) ∧
      shipAttached (onKeydowns (startRig o) ks) = (onKeydowns (startRig o) ks).flycontrol ∧
      activeKind (onKeydowns (startRig o) ks) =
        some (if (onKeydowns (startRig o) ks).flycontrol then ControlKind.fly
              else ControlKind.orbit) := by
    intro ks
    refine ⟨?_, shipAttached_of_inv (shipInv_onKeydowns (shipInv_start o) ks),
      activeKind_of_inv (ctrlInv_onKeydowns (ctrlInv_rigAfterView (some o)) ks)⟩
    rw [onKeydowns_flycontrol]
    simp [startRig, shipLoaded, view, initialRig, newControls, cameraAdd]
  have h0 := gen []
  have h1 := gen ["Enter"]
  have h2 := gen ["Enter", "Enter"]
  have e1 : (onKeydowns (startRig o) ["Enter"]).flycontrol = false := by
    have := h1.1
    simp at this
    exact this
  have e2 : (onKeydowns (startRig o) ["Enter", "Enter"]).flycontrol = true := by
    rw [h2.1]; decide
  have e0 : (startRig o).flycontrol = true := by
    have := h0.1
    simpa [onKeydowns] using this
  have hn := gen (List.replicate n "Enter")
  rw [List.count_replicate_self] at hn
  refine ⟨⟨rfl, rfl, e0, ?_⟩, ⟨e1, ?_, ?_⟩, ⟨e2, ?_, ?_⟩, gen keys, ⟨hn.1, hn.2.1⟩, ?_⟩
  · have := h0.2.1
    simpa [onKeydowns, e0] using this
  · rw [h1.2.2, e1]; rfl
  · rw [h1.2.1, e1]
  · rw [h2.2.2, e2]; rfl
  · rw [h2.2.1, e2]
  · intro hk
    refine ⟨onKeydown_other r key hk, ?_⟩
    simp [onKeydowns, List.foldl_append, onKeydown_other _ key hk]

/-- Witness for `camera_mode_machine`: the key `a` pressed on the start rig. -/
theorem camera_mode_machine_witness :
    "a" ≠ "Enter" ∧ onKeydown (startRig 7) "a" = startRig 7 :=
  ⟨by decide, ((camera_mode_machine 7 0 [] (startRig 7) "a").2.2.2.2.2 (by decide)).1⟩

/-! ## Scene construction: proofs -/

section SceneProofs

variable {ν : Type} [Field ν]

@[simp] theorem num_add_num (a b : ν) : (num a + num b : JSNum ν) = num (a + b) := rfl
@[simp] theorem num_sub_num (a b : ν) : (num a - num b : JSNum ν) = num (a - b) := rfl
@[simp] theorem num_mul_num (a b : ν) : (num a * num b : JSNum ν) = num (a * b) := rfl
@[simp] theorem num_div_num (a b : ν) : (num a / num b : JSNum ν) = num (a / b) := rfl
@[simp] theorem nan_mul (a : JSNum ν) : (JSNum.NaN * a : JSNum ν) = JSNum.NaN := rfl
@[simp] theorem nan_div (a : JSNum ν) : (JSNum.NaN / a : JSNum ν) = JSNum.NaN := rfl
@[simp] theorem nan_add (a : JSNum ν) : (JSNum.NaN + a : JSNum ν) = JSNum.NaN := rfl
@[simp] theorem mul_nan (a : JSNum ν) : (a * JSNum.NaN : JSNum ν) = JSNum.NaN := by
  cases a <;> rfl

theorem initLoop_cons (M : JSMath ν) (b : CelestialBody ν) (bs : List (CelestialBody ν))
    (w : World ν) : initLoop M (b :: bs) w = initLoop M bs (initBody M w b) := rfl

theorem initBody_sun (M : JSMath ν) (w : World ν) (b : CelestialBody ν)
    (h : (b.name == "sun") = true) :
    (initBody M w b).Planets = w.Planets ∧ (initBody M w b).distance = w.distance ∧
    (initBody M w b).stars.length = w.stars.length + 1 ∧
    (initBody M w b).Moons = w.Moons := by
  simp [initBody, h, createSun]

theorem initBody_planet (M : JSMath ν) (w : World ν) (b : CelestialBody ν) (q : ν)
    (h : (b.name == "sun") = false) (hq : w.distance = num q) :
    (initBody M w b).Planets = w.Planets ++ [entryPlanet M (num (q * 10)) b] ∧
    (initBody M w b).distance = num (q + 3) ∧
    (initBody M w b).stars = w.stars ∧
    (initBody M w b).Moons = w.Moons := by
  simp [initBody, h, createPlanets, entryPlanet, hq]

/-- The planets after the catalog loop: the earlier ones, then one per
planet entry, placed at `q * 10`, `(q + 3) * 10`, ... -/
theorem initLoop_Planets (M : JSMath ν) (catalog : List (CelestialBody ν)) (w : World ν)
    (q : ν) (hq : w.distance = num q) :
    (initLoop M catalog w).Planets = w.Planets ++ placed M q (planetEntries catalog) := by
  induction catalog generalizing w q with
  | nil => simp [initLoop, planetEntries, placed]
  | cons b bs ih =>
    rw [initLoop_cons]
    cases h : (b.name == "sun")
    · obtain ⟨h1, h2, _, _⟩ := initBody_planet M w b q h hq
      rw [ih _ (q + 3) h2, h1]
      simp [planetEntries, List.filter_cons, h, placed]
    · obtain ⟨h1, h2, _, _⟩ := initBody_sun M w b h
      rw [ih _ q (h2.trans hq), h1]
      simp [planetEntries, List.filter_cons, h]

theorem initLoop_stars_length (M : JSMath ν) (catalog : List (CelestialBody ν)) (w : World ν) :
    (initLoop M catalog w).stars.length = w.stars.length + (starEntries catalog).length := by
  induction catalog generalizing w with
  | nil => simp [initLoop, starEntries]
  | cons b bs ih =>
    rw [initLoop_cons, ih]
    cases h : (b.name == "sun")
    · simp [initBody, h, createPlanets, starEntries, List.filter_cons]
    · simp [initBody, h, createSun, starEntries, List.filter_cons]; omega

theorem placed_length (M : JSMath ν) (q : ν) (bs : List (CelestialBody ν)) :
    (placed M q bs).length = bs.length := by
  induction bs generalizing q with
  | nil => rfl
  | cons b bs ih => simp [placed, ih]

theorem placed_dist (M : JSMath ν) (q : ν) (bs : List (CelestialBody ν)) :
    (placed M q bs).map PlanetMesh.dist =
      (List.range bs.length).map (fun i : Nat => num ((q + 3 * (i : ν)) * 10)) := by
  induction bs generalizing q with
  | nil => rfl
  | cons b bs ih =>
    simp only [placed, List.map_cons, List.length_cons, List.range_succ_eq_map, ih,
      List.map_map]
    refine congrArg₂ _ ?_ (List.map_congr_left ?_)
    · simp [entryPlanet]
    · intro i _
      simp only [Function.comp, Nat.cast_succ]
      congr 1
      ring

end SceneProofs

/-! ## The catalog and the catalog loop: properties -/

theorem placed_zipWith (M : JSMath ℚ) (q : ℚ) (bs : List (CelestialBody ℚ)) :
    placed M q bs = List.zipWith (entryPlanet M)
      ((List.range bs.length).map (fun i : Nat => num ((q + 3 * (i : ℚ)) * 10))) bs := by
  induction bs generalizing q with
  | nil => rfl
  | cons b bs ih =>
    simp only [placed, List.length_cons, List.range_succ_eq_map, ih, List.map_cons,
      List.map_map, List.zipWith_cons_cons]
    refine congrArg₂ _ (by simp) ?_
    congr 1
    apply List.map_congr_left
    intro i _
    simp only [Function.comp, Nat.cast_succ]
    congr 1
    ring

theorem pairwise_lt_dists (q : ℚ) (n : Nat) :
    ((List.range n).map (fun i : Nat => num ((q + 3 * (i : ℚ)) * 10))).Pairwise JSNum.lt := by
  rw [List.pairwise_map]
  refine (List.pairwise_lt_range n).imp ?_
  intro i j hij
  have h : (i : ℚ) < (j : ℚ) := by exact_mod_cast hij
  show (q + 3 * (i : ℚ)) * 10 < (q + 3 * (j : ℚ)) * 10
  linarith

/-- Claim C3. The catalog loop of `init`, started on the initial globals, gives
the planets of `SolarSystem` the distances 30, 60, ..., 240, in catalog order
and strictly increasing. For every catalog, the planets are the non-sun
entries in catalog order, the `i`-th of them built with
`dist = (3 + 3 * i) * 10`, wherever the sun entries stand; these distances
are strictly increasing. -/
theorem baseDistance_by_catalog_order (M : JSMath ℚ) (now : ℚ)
    (catalog : List (CelestialBody ℚ)) :
    ((initLoop M (SolarSystem ℚ) (initialWorld now)).Planets.map PlanetMesh.dist
        = [num 30, num 60, num 90, num 120, num 150, num 180, num 210, num 240] ∧
      ((initLoop M (SolarSystem ℚ) (initialWorld now)).Planets.map
        PlanetMesh.dist).Pairwise JSNum.lt) ∧
    ((initLoop M catalog (initialWorld now)).Planets
        = List.zipWith (entryPlanet M)
            ((List.range (planetEntries catalog).length).map
              (fun i : Nat => num ((3 + 3 * (i : ℚ)) * 10)))
            (planetEntries catalog) ∧
      (initLoop M catalog (initialWorld now)).Planets.map PlanetMesh.dist
        = (List.range (planetEntries catalog).length).map
            (fun i : Nat => num ((3 + 3 * (i : ℚ)) * 10)) ∧
      ((initLoop M catalog (initialWorld now)).Planets.map PlanetMesh.dist).Pairwise JSNum.lt) := by
  have gen : ∀ cat : List (CelestialBody ℚ),
      (initLoop M cat (initialWorld now)).Planets = placed M 3 (planetEntries cat) := by
    intro cat
    rw [initLoop_Planets M cat (initialWorld now) 3 rfl]
    rfl
  have hd : ∀ cat : List (CelestialBody ℚ),
      (initLoop M cat (initialWorld now)).Planets.map PlanetMesh.dist
        = (List.range (planetEntries cat).length).map
            (fun i : Nat => num ((3 + 3 * (i : ℚ)) * 10)) := by
    intro cat
    rw [gen, placed_dist]
  refine ⟨⟨?_, ?_⟩, ?_, hd catalog, ?_⟩
  · rw [hd]
    have hlen : (planetEntries (SolarSystem ℚ)).length = 8 := by decide
    rw [hlen]
    simp [List.range_succ]
    norm_num
  · rw [hd]; exact pairwise_lt_dists 3 _
  · rw [gen, placed_zipWith]
  · rw [hd]; exact pairwise_lt_dists 3 _

/-- Counterexample to claim C8: the stored values put mercury (173.7) outside
venus (129.6), so the planets of `SolarSystem` are not in increasing order of
semi-major distance. -/
theorem solarSystem_not_ordered_by_semiMajor : ¬ CatalogInvariant (SolarSystem ℚ) := by
  intro h
  have h3 := h.2.2
  have hf : (SolarSystem ℚ).filter (fun b => !(b.orbitSpeed == some 0))
      = (SolarSystem ℚ).tail := by
    simp [SolarSystem]
    norm_num
  rw [hf] at h3
  simp only [SolarSystem, List.tail_cons, List.pairwise_cons] at h3
  have := h3.1 _ (List.mem_cons_self _ _)
  simp [outward, semiMajor] at this
  norm_num at this

/-- Claim C8, amended. In `SolarSystem` exactly one entry has `orbitSpeed` 0
and it is the first one; the stored semi-major distances are, in catalog
order, 173.7, 129.6, 115, 2275/19, 779/6, 143, 2875/18 and 180, so that the
entries from earth onward are in strictly increasing order while mercury and
venus are not. -/
theorem solarSystem_catalog_shape :
    ((SolarSystem ℚ).filter (fun b => b.orbitSpeed == some 0)).length = 1 ∧
    (SolarSystem ℚ).head?.bind CelestialBody.orbitSpeed = some 0 ∧
    (SolarSystem ℚ).map semiMajor
      = [none, some 173.7, some 129.6, some 115, some (2275 / 19), some (779 / 6),
         some 143, some (2875 / 18), some 180] ∧
    ((SolarSystem ℚ).drop 3).Pairwise (fun a b => outward a b = true) := by
  refine ⟨?_, rfl, ?_, ?_⟩
  · simp [SolarSystem]
    norm_num
  · simp [SolarSystem, semiMajor]
    norm_num
  · simp [SolarSystem, outward, semiMajor]
    norm_num

/-! ## Moons -/

theorem solarSystem_placed (M : JSMath ℚ) (now : ℚ) :
    (initLoop M (SolarSystem ℚ) (initialWorld now)).Planets
      = List.zipWith (entryPlanet M)
          [num 30, num 60, num 90, num 120, num 150, num 180, num 210, num 240]
          (SolarSystem ℚ).tail := by
  rw [initLoop_Planets M _ (initialWorld now) 3 rfl]
  have : planetEntries (SolarSystem ℚ) = (SolarSystem ℚ).tail := rfl
  rw [this]
  simp [initialWorld, SolarSystem, placed]
  norm_num

theorem initLoop_Moons (M : JSMath ℚ) (catalog : List (CelestialBody ℚ)) (w : World ℚ) :
    (initLoop M catalog w).Moons = w.Moons := by
  induction catalog generalizing w with
  | nil => rfl
  | cons b bs ih =>
    rw [initLoop_cons, ih]
    cases h : (b.name == "sun") <;> simp [initBody, h, createPlanets, createSun]

/-- The eleven `createMoon` calls on a world with at least eight planets and
no moon. -/
theorem initMoons_eight (w : World ℚ) (p0 p1 p2 p3 p4 p5 p6 p7 : PlanetMesh ℚ)
    (rest : List (PlanetMesh ℚ))
    (hP : w.Planets = p0 :: p1 :: p2 :: p3 :: p4 :: p5 :: p6 :: p7 :: rest) (hM : w.Moons = []) :
    ∃ w1, initMoons w = Except.ok w1 ∧
      w1.stars = w.stars ∧
      w1.Moons.length = 11 ∧
      w1.Planets.map (fun p => { p with children := [] })
        = w.Planets.map (fun p => { p with children := [] }) ∧
      w1.Planets.map PlanetMesh.children = [p0.children, p1.children, p2.children ++ [0],
        p3.children ++ [1, 2], p4.children ++ [3, 4, 5, 6], p5.children ++ [7, 8],
        p6.children ++ [9], p7.children ++ [10]] ++ rest.map PlanetMesh.children ∧
      w1.Moons.map (fun m => m.pivot.parent) = [some 2, some 3, some 3, some 4, some 4,
        some 4, some 4, some 5, some 5, some 6, some 7] ∧
      w1.Moons.map (fun m => m.pivot.children)
        = [[0], [1], [2], [3], [4], [5], [6], [7], [8], [9], [10]] ∧
      w1.Moons.map (fun m => m.moon.parent) = [some 0, some 1, some 2, some 3, some 4,
        some 5, some 6, some 7, some 8, some 9, some 10] ∧
      w1.Moons.map (fun m => m.moon.dist) = [num 8, num 3, num 5, num 20, num 25, num 30,
        num 35, num 20, num 15, num 10, num 12] ∧
      (∀ m ∈ w1.Moons, m.moon.position = ⟨m.moon.dist, num 0, num 0⟩) := by
  obtain ⟨d, P, Ms, t0, st, orb, sc⟩ := w
  simp only at hP hM
  subst hP hM
  simp [initMoons, createMoon, planetAt, addPivot, bind, Except.bind]

theorem map_texturePath_of_map_clear {ν : Type} (ps qs : List (PlanetMesh ν))
    (h : ps.map (fun p => { p with children := [] }) = qs.map (fun p => { p with children := [] })) :
    ps.map PlanetMesh.texturePath = qs.map PlanetMesh.texturePath ∧
    ps.map PlanetMesh.f1 = qs.map PlanetMesh.f1 ∧
    ps.map PlanetMesh.f2 = qs.map PlanetMesh.f2 ∧ ps.length = qs.length := by
  refine ⟨?_, ?_, ?_, ?_⟩
  · simpa [List.map_map, Function.comp] using congrArg (List.map PlanetMesh.texturePath) h
  · simpa [List.map_map, Function.comp] using congrArg (List.map PlanetMesh.f1) h
  · simpa [List.map_map, Function.comp] using congrArg (List.map PlanetMesh.f2) h
  · simpa using congrArg List.length h

/-- Claim C7. After the catalog loop of `init` over `SolarSystem`, `Planets`
has eight entries, built in order from the catalog entries mercury, venus,
earth, mars, jupiter, saturn, uranus and neptune, so that `Planets[2]` to
`Planets[7]` are earth to neptune. The eleven `createMoon` calls then succeed
and leave eleven moons: the pivots of moons 0; 1, 2; 3 to 6; 7, 8; 9; 10 are
children of planets 2, 3, 4, 5, 6, 7 respectively (1, 2, 4, 2, 1 and 1
moons), mercury and venus have no child, every moon is the child of its own
pivot and sits at local position `(dist, 0, 0)`. -/
theorem moons_attached_to_outer_planets (M : JSMath ℚ) (now : ℚ) :
    ((initLoop M (SolarSystem ℚ) (initialWorld now)).Planets.length = 8 ∧
      (initLoop M (SolarSystem ℚ) (initialWorld now)).Planets
        = List.zipWith (entryPlanet M)
            [num 30, num 60, num 90, num 120, num 150, num 180, num 210, num 240]
            (SolarSystem ℚ).tail ∧
      (initLoop M (SolarSystem ℚ) (initialWorld now)).Planets.map PlanetMesh.texturePath
        = ["./planetsTextures/mercury.jpg", "./planetsTextures/venus.jpg",
         "./planetsTextures/earth.jpg", "./planetsTextures/mars.jpg",
         "./planetsTextures/jupiter.jpg", "./planetsTextures/saturn.jpg",
         "./planetsTextures/uranus.jpg", "./planetsTextures/neptune.jpg"] ∧
      (initLoop M (SolarSystem ℚ) (initialWorld now)).Planets.map PlanetMesh.children
        = [[], [], [], [], [], [], [], []]) ∧
    ∃ w, initScene M (SolarSystem ℚ) (initialWorld now) = Except.ok w ∧
      w.Moons.length = 11 ∧
      w.Planets.map PlanetMesh.texturePath
        = ["./planetsTextures/mercury.jpg", "./planetsTextures/venus.jpg",
         "./planetsTextures/earth.jpg", "./planetsTextures/mars.jpg",
         "./planetsTextures/jupiter.jpg", "./planetsTextures/saturn.jpg",
         "./planetsTextures/uranus.jpg", "./planetsTextures/neptune.jpg"] ∧
      w.Planets.map PlanetMesh.children
        = [[], [], [0], [1, 2], [3, 4, 5, 6], [7, 8], [9], [10]] ∧
      w.Moons.map (fun m => m.pivot.parent) = [some 2, some 3, some 3, some 4, some 4,
        some 4, some 4, some 5, some 5, some 6, some 7] ∧
      w.Moons.map (fun m => m.pivot.children)
        = [[0], [1], [2], [3], [4], [5], [6], [7], [8], [9], [10]] ∧
      w.Moons.map (fun m => m.moon.parent) = [some 0, some 1, some 2, some 3, some 4,
        some 5, some 6, some 7, some 8, some 9, some 10] ∧
      w.Moons.map (fun m => m.moon.dist) = [num 8, num 3, num 5, num 20, num 25, num 30,
        num 35, num 20, num 15, num 10, num 12] ∧
      (∀ m ∈ w.Moons, m.moon.position = ⟨m.moon.dist, num 0, num 0⟩) := by
  have hP := solarSystem_placed M now
  have hP8 : (initLoop M (SolarSystem ℚ) (initialWorld now)).Planets
      = [entryPlanet M (num 30) ((SolarSystem ℚ).get ⟨1, by decide⟩),
         entryPlanet M (num 60) ((SolarSystem ℚ).get ⟨2, by decide⟩),
         entryPlanet M (num 90) ((SolarSystem ℚ).get ⟨3, by decide⟩),
         entryPlanet M (num 120) ((SolarSystem ℚ).get ⟨4, by decide⟩),
         entryPlanet M (num 150) ((SolarSystem ℚ).get ⟨5, by decide⟩),
         entryPlanet M (num 180) ((SolarSystem ℚ).get ⟨6, by decide⟩),
         entryPlanet M (num 210) ((SolarSystem ℚ).get ⟨7, by decide⟩),
         entryPlanet M (num 240) ((SolarSystem ℚ).get ⟨8, by decide⟩)] := by
    rw [hP]; rfl
  have hpaths : (initLoop M (SolarSystem ℚ) (initialWorld now)).Planets.map
      PlanetMesh.texturePath = ["./planetsTextures/mercury.jpg", "./planetsTextures/venus.jpg",
         "./planetsTextures/earth.jpg", "./planetsTextures/mars.jpg",
         "./planetsTextures/jupiter.jpg", "./planetsTextures/saturn.jpg",
         "./planetsTextures/uranus.jpg", "./planetsTextures/neptune.jpg"] := by
    rw [hP8]; rfl
  have hM : (initLoop M (SolarSystem ℚ) (initialWorld now)).Moons = [] := by
    rw [initLoop_Moons]; rfl
  obtain ⟨w1, h1, _, h3, h4, h5, h6, h7, h8, h9, h10⟩ :=
    initMoons_eight _ _ _ _ _ _ _ _ _ [] hP8 hM
  refine ⟨⟨?_, hP, hpaths, ?_⟩, w1, h1, h3,
    (map_texturePath_of_map_clear _ _ h4).1.trans hpaths, ?_, h6, h7, h8, h9, h10⟩
  · rw [hP8]; rfl
  · rw [hP8]; rfl
  · rw [h5]; rfl

/-! ## Catalog validation -/

theorem brokenCatalog_planets (M : JSMath ℚ) (now : ℚ) :
    (initLoop M brokenCatalog (initialWorld now)).Planets
      = (initLoop M (SolarSystem ℚ) (initialWorld now)).Planets
          ++ [entryPlanet M (num 270) ceresEntry] := by
  rw [initLoop_Planets M _ (initialWorld now) 3 rfl,
    initLoop_Planets M _ (initialWorld now) 3 rfl]
  have h1 : planetEntries brokenCatalog = (SolarSystem ℚ).tail ++ [ceresEntry] := rfl
  have h2 : planetEntries (SolarSystem ℚ) = (SolarSystem ℚ).tail := rfl
  rw [h1, h2]
  simp [initialWorld, SolarSystem, placed]
  norm_num

/-- Counterexample to claim C9: `brokenCatalog` is invalid (a second sun entry,
and an entry without `perihelio` and `afelio`), yet scene construction
completes on it: the result has two stars and nine planets, the ninth being
the body built for `ceres`, whose shape factors are `NaN`. -/
theorem invalid_catalog_is_assembled :
    invalidCatalog brokenCatalog = true ∧
    ∀ (M : JSMath ℚ) (now : ℚ),
      ∃ w, initScene M brokenCatalog (initialWorld now) = Except.ok w ∧
        w.stars.length = 2 ∧ w.Planets.length = 9 ∧
        (w.Planets.map PlanetMesh.texturePath).get? 8 = some "./planetsTextures/ceres.jpg" ∧
        (w.Planets.map PlanetMesh.f1).get? 8 = some JSNum.NaN ∧
        (w.Planets.map PlanetMesh.f2).get? 8 = some JSNum.NaN := by
  refine ⟨?_, ?_⟩
  · simp [invalidCatalog, brokenCatalog, SolarSystem, isStarEntry, lacksFactors, ceresEntry]
    right
    norm_num
  · intro M now
    have hP := brokenCatalog_planets M now
    rw [solarSystem_placed] at hP
    have hM : (initLoop M brokenCatalog (initialWorld now)).Moons = [] := by
      rw [initLoop_Moons]; rfl
    have hS : (initLoop M brokenCatalog (initialWorld now)).stars.length = 2 := by
      rw [initLoop_stars_length]; rfl
    obtain ⟨w1, h1, h2, _, h4, _⟩ := initMoons_eight _ _ _ _ _ _ _ _ _ _ hP hM
    obtain ⟨e1, e2, e3, e4⟩ := map_texturePath_of_map_clear _ _ h4
    refine ⟨w1, h1, ?_, ?_, ?_, ?_, ?_⟩
    · rw [h2]; exact hS
    · rw [e4, hP]; rfl
    · rw [e1, hP]; rfl
    · rw [e2, hP]; rfl
    · rw [e3, hP]; rfl

/-- Claim C9, amended. The catalog loop of `init` validates nothing and cannot
fail: for every catalog it runs to the end, creating one star for every entry
named `sun` (a second one included) and one planet for every other entry, in
catalog order; an entry without `afelio` gives a planet with `f1 = NaN`, and
one without `perihelio` a planet with `f2 = NaN`. -/
theorem catalog_loop_accepts_every_catalog (M : JSMath ℚ) (now : ℚ)
    (catalog : List (CelestialBody ℚ)) (b : CelestialBody ℚ) (dist : JSNum ℚ) :
    (initLoop M catalog (initialWorld now)).stars.length = (starEntries catalog).length ∧
    (initLoop M catalog (initialWorld now)).Planets
      = List.zipWith (entryPlanet M)
          ((List.range (planetEntries catalog).length).map
            (fun i : Nat => num ((3 + 3 * (i : ℚ)) * 10)))
          (planetEntries catalog) ∧
    (initLoop M catalog (initialWorld now)).Planets.length = (planetEntries catalog).length ∧
    (entryPlanet M dist { b with afelio := none }).f1 = JSNum.NaN ∧
    (entryPlanet M dist { b with perihelio := none }).f2 = JSNum.NaN := by
  have hP : (initLoop M catalog (initialWorld now)).Planets
      = placed M 3 (planetEntries catalog) := by
    rw [initLoop_Planets M catalog (initialWorld now) 3 rfl]; rfl
  refine ⟨?_, ?_, ?_, rfl, rfl⟩
  · rw [initLoop_stars_length]; simp [initialWorld]
  · rw [hP, placed_zipWith]
  · rw [hP, placed_length]

/-! ## Animation: properties -/

theorem animate_Planets (M : JSMath ℝ) (w : World ℝ) (frame : JSNum ℝ × JSNum ℝ) :
    (animate M w frame).Planets = w.Planets.map (animatePlanet M (timestamp frame.1 w)) := rfl

theorem animate_Moons (M : JSMath ℝ) (w : World ℝ) (frame : JSNum ℝ × JSNum ℝ) :
    (animate M w frame).Moons = w.Moons.map animateMoon := rfl

theorem animateFrames_Moons (M : JSMath ℝ) (w : World ℝ) (frames : List (JSNum ℝ × JSNum ℝ)) :
    (animateFrames M w frames).Moons = w.Moons.map (animateMoon^[frames.length]) := by
  induction frames generalizing w with
  | nil => simp [animateFrames]
  | cons f fs ih =>
    show (animateFrames M (animate M w f) fs).Moons = _
    rw [ih, animate_Moons, List.map_map, List.length_cons, Function.iterate_succ]

theorem animateMoon_iterate (item : MoonItem ℝ) (r s : ℝ) (n : Nat)
    (hr : item.pivot.rotation.y = num r) (hs : item.moon.speed = num s) :
    animateMoon^[n] item =
      { item with
        pivot := { item.pivot with
          rotation := { item.pivot.rotation with y := num (r + (n : ℝ) * s) } } } := by
  induction n with
  | zero =>
    obtain ⟨moon, ⟨⟨x, y, z⟩, par, ch⟩⟩ := item
    simp only at hr
    simp [hr]
  | succ n ih =>
    rw [Function.iterate_succ_apply', ih]
    simp only [animateMoon, hs, num_add_num, Nat.cast_succ]
    congr 4
    ring

/-- Counterexample to claim C4: the planet update at simulated time 0 does not
put every planet at `(f1 * dist, 0)`. A planet whose `f2` is `NaN` gets
`y = NaN`; the body built for `ceresEntry` (no `perihelio`, no `afelio`) gets
`(NaN, NaN)`, and it is the ninth planet that the catalog loop builds from
`brokenCatalog`, so a run of `animate` with `Date.now()` equal to `t0` leaves
it at `(NaN, NaN, 0)`. -/
theorem nan_planet_at_time_zero :
    (¬ ∀ p : PlanetMesh ℝ,
        (animatePlanet ⟨Real.cos, Real.sin, Real.pi⟩ (num 0) p).position
          = ⟨p.f1 * p.dist, num 0, p.position.z⟩) ∧
    (animatePlanet ⟨Real.cos, Real.sin, Real.pi⟩ (num 0)
        (entryPlanet ⟨Real.cos, Real.sin, Real.pi⟩ (num 270)
          ⟨"ceres", some 0.47, some 1.79, none, none⟩)).position
      = ⟨JSNum.NaN, JSNum.NaN, num 0⟩ ∧
    ∀ (M : JSMath ℚ) (now : ℚ) (delta : JSNum ℚ),
      (initLoop M brokenCatalog (initialWorld now)).Planets.get? 8
        = some (entryPlanet M (num 270) ceresEntry) ∧
      ((animate M (initLoop M brokenCatalog (initialWorld now)) (num now, delta)).Planets.map
          PlanetMesh.position).get? 8
        = some ⟨JSNum.NaN, JSNum.NaN, num 0⟩ := by
  refine ⟨?_, ?_, ?_⟩
  · intro h
    have h1 := h { rad := num 1, texturePath := "", rotation := ⟨num 0, num 0, num 0⟩,
                   position := ⟨num 0, num 0, num 0⟩, dist := num 30, speed := num 1,
                   f1 := num 1, f2 := JSNum.NaN, children := [] }
    have h2 := congrArg Vec3.y h1
    simp [animatePlanet, JSMath.jsSin, JSNum.lift1] at h2
  · simp [animatePlanet, entryPlanet, JSNum.ofProperty]
  · intro M now delta
    have hP := brokenCatalog_planets M now
    rw [solarSystem_placed] at hP
    have hget : (initLoop M brokenCatalog (initialWorld now)).Planets.get? 8
        = some (entryPlanet M (num 270) ceresEntry) := by
      rw [hP]; rfl
    refine ⟨hget, ?_⟩
    show ((List.map (animatePlanet M (timestamp (num now) _))
      (initLoop M brokenCatalog (initialWorld now)).Planets).map PlanetMesh.position).get? 8 = _
    rw [List.map_map, List.get?_eq_getElem?, List.getElem?_map,
      ← List.get?_eq_getElem?, hget]
    simp [animatePlanet, entryPlanet, ceresEntry, JSNum.ofProperty]

/-- Claim C4, amended. At simulated time 0, which is the value of `timestamp`
when `Date.now()` equals `t0`, the planet update of `animate` puts a planet
whose parameters `dist`, `speed`, `f1`, `f2` are numbers (none of them `NaN`)
at `x = f1 * dist`, `y = 0` (leaving `z` as it was); with `dist = 30`,
`f1 = 0.6`, `f2 = 0.5` this is `(18, 0)`. -/
theorem planet_position_at_time_zero (p : PlanetMesh ℝ) (dist speed f1 f2 t0 : ℝ)
    (w : World ℝ) (delta : JSNum ℝ) :
    (animatePlanet ⟨Real.cos, Real.sin, Real.pi⟩ (num 0)
        { p with dist := num dist, speed := num speed, f1 := num f1, f2 := num f2 }).position
      = ⟨num (f1 * dist), num 0, p.position.z⟩ ∧
    (animatePlanet ⟨Real.cos, Real.sin, Real.pi⟩ (num 0)
        { p with dist := num 30, speed := num speed, f1 := num 0.6, f2 := num 0.5 }).position
      = ⟨num 18, num 0, p.position.z⟩ ∧
    timestamp (num t0) { w with t0 := num t0 } = num 0 ∧
    (animate ⟨Real.cos, Real.sin, Real.pi⟩ { w with t0 := num t0 } (num t0, delta)).Planets
      = w.Planets.map (animatePlanet ⟨Real.cos, Real.sin, Real.pi⟩ (num 0)) := by
  have ht : timestamp (num t0) { w with t0 := num t0 } = num 0 := by
    simp [timestamp, accglobal]
  refine ⟨?_, ?_, ht, ?_⟩
  · simp [animatePlanet, JSMath.jsCos, JSMath.jsSin, JSNum.lift1]
  · simp [animatePlanet, JSMath.jsCos, JSMath.jsSin, JSNum.lift1]
    norm_num
  · rw [animate_Planets]
    simp only [ht]

/-- Claim C5. A moon created by `createMoon` with angular speed `s` has, after
`N` runs of `animate`, the pivot rotation `(angle, N * s, 0)`, whatever the
timestamps and deltas of the frames (and whatever `Math.cos`/`Math.sin`
return), while the moon keeps its local position `(dist, 0, 0)`. In every
world the moons after `N` frames are the moons with the moon update applied
`N` times. -/
theorem moon_rotation_counts_frames (M : JSMath ℝ) (w : World ℝ) (planet : Nat)
    (rad dist s : ℝ) (col : Option Nat) (angle : Option (JSNum ℝ))
    (frames : List (JSNum ℝ × JSNum ℝ)) :
    (animateFrames M w frames).Moons = w.Moons.map (animateMoon^[frames.length]) ∧
    ∃ w1, createMoon (some planet) (num rad) (num dist) (some (num s)) col angle w
        = Except.ok w1 ∧
      ∃ item, (animateFrames M w1 frames).Moons.getLast? = some item ∧
        item.pivot.rotation = ⟨angle.getD (num 0), num ((frames.length : ℝ) * s), num 0⟩ ∧
        item.moon.position = ⟨num dist, num 0, num 0⟩ ∧
        item.moon.speed = num s ∧
        item.pivot.parent = some planet ∧
        item.moon.parent = some w.Moons.length := by
  refine ⟨animateFrames_Moons M w frames, _, rfl, ?_⟩
  rw [animateFrames_Moons]
  simp only [List.map_append, List.map_cons, List.map_nil, List.getLast?_concat]
  refine ⟨_, rfl, ?_⟩
  rw [animateMoon_iterate _ 0 s frames.length rfl rfl]
  simp

/-! ## Orbit geometry -/

theorem getPoint_num (a b t : ℝ) :
    EllipseCurve.getPoint ⟨Real.cos, Real.sin, Real.pi⟩
        { aX := num 0, aY := num 0, xRadius := num a, yRadius := num b } (num t)
      = ⟨num (a * Real.cos (t * (2 * Real.pi))), num (b * Real.sin (t * (2 * Real.pi)))⟩ := by
  simp [EllipseCurve.getPoint, JSMath.jsCos, JSMath.jsSin, JSNum.lift1, mul_comm Real.pi 2]

theorem on_ellipse (a b θ : ℝ) (ha : a ≠ 0) (hb : b ≠ 0) :
    (a * Real.cos θ / a) ^ 2 + (b * Real.sin θ / b) ^ 2 = 1 := by
  rw [mul_div_cancel_left₀ _ ha, mul_div_cancel_left₀ _ hb]
  exact Real.cos_sq_add_sin_sq θ

theorem createPlanets_orbit (w : World ℝ) (col : Nat) (rad : JSNum ℝ) (path : String)
    (d s f1 f2 : ℝ) :
    (createPlanets ⟨Real.cos, Real.sin, Real.pi⟩ (num d) col rad (some (num s))
        (some (num f1)) (some (num f2)) path w).orbits.getLast?
      = some ((List.range 101).map (fun i : Nat =>
          (⟨num (d * f1 * Real.cos ((i : ℝ) / 100 * (2 * Real.pi))),
            num (d * f2 * Real.sin ((i : ℝ) / 100 * (2 * Real.pi)))⟩ : Vec2 ℝ))) := by
  simp only [createPlanets, List.getLast?_concat, Option.getD_some, orbitCurve, num_mul_num,
    EllipseCurve.getPoints, num_div_num, getPoint_num]
  norm_num

/-- Claim C6. The orbit that `createPlanets` draws for distance `d` and shape
factors `f1`, `f2` (with `d * f1` and `d * f2` non-zero) samples the ellipse
centred at `(0, 0)` with radii `a = d * f1` and `b = d * f2` at the parameters
`i / 100`, `i = 0, ..., 100`: it has 101 points, its first and last points are
both `(a, 0)`, and every point `(x, y)` satisfies `(x/a)^2 + (y/b)^2 = 1`. -/
theorem orbit_polyline_on_ellipse (w : World ℝ) (col : Nat) (rad : JSNum ℝ) (path : String)
    (d s f1 f2 : ℝ) (ha : d * f1 ≠ 0) (hb : d * f2 ≠ 0) :
    orbitCurve (num d) (num f1) (num f2)
      = { aX := num 0, aY := num 0, xRadius := num (d * f1), yRadius := num (d * f2) } ∧
    ∃ points,
      (createPlanets ⟨Real.cos, Real.sin, Real.pi⟩ (num d) col rad (some (num s))
          (some (num f1)) (some (num f2)) path w).orbits.getLast? = some points ∧
      points = (orbitCurve (num d) (num f1) (num f2)).getPoints ⟨Real.cos, Real.sin, Real.pi⟩ 100 ∧
      points.length = 101 ∧
      points.head? = some ⟨num (d * f1), num 0⟩ ∧
      points.getLast? = some ⟨num (d * f1), num 0⟩ ∧
      ∀ p ∈ points, ∃ x y : ℝ, p = ⟨num x, num y⟩ ∧
        (x / (d * f1)) ^ 2 + (y / (d * f2)) ^ 2 = 1 := by
  refine ⟨rfl, _, createPlanets_orbit w col rad path d s f1 f2, ?_, ?_, ?_, ?_, ?_⟩
  · simp only [orbitCurve, num_mul_num, EllipseCurve.getPoints, num_div_num, getPoint_num]
    norm_num
  · simp
  · rw [List.range_succ_eq_map]
    simp
  · rw [List.range_succ]
    simp only [List.map_append, List.map_cons, List.map_nil, List.getLast?_concat]
    norm_num
  · intro p hp
    obtain ⟨i, _, rfl⟩ := List.mem_map.1 hp
    exact ⟨_, _, rfl, on_ellipse _ _ _ ha hb⟩

/-- Witness for `orbit_polyline_on_ellipse`: `d = 30`, `f1 = 0.6`, `f2 = 0.5`. -/
theorem orbit_polyline_on_ellipse_witness :
    (30 : ℝ) * 0.6 ≠ 0 ∧ (30 : ℝ) * 0.5 ≠ 0 ∧
    ∃ points,
      (createPlanets ⟨Real.cos, Real.sin, Real.pi⟩ (num 30) 0xff0000 (num 1) (some (num 1))
          (some (num 0.6)) (some (num 0.5)) "./planetsTextures/mercury.jpg"
          (initialWorld 0)).orbits.getLast? = some points ∧
      points.length = 101 :=
  ⟨by norm_num, by norm_num,
    let ⟨points, h1, _, h3, _⟩ :=
      (orbit_polyline_on_ellipse (initialWorld 0) 0xff0000 (num 1)
        "./planetsTextures/mercury.jpg" 30 1 0.6 0.5 (by norm_num) (by norm_num)).2
    ⟨points, h1, h3⟩⟩

/-! ## A planet stays on its orbit -/

theorem animatePlanet_position (p : PlanetMesh ℝ) (d s f1 f2 t : ℝ)
    (hd : p.dist = num d) (hs : p.speed = num s) (h1 : p.f1 = num f1) (h2 : p.f2 = num f2) :
    (animatePlanet ⟨Real.cos, Real.sin, Real.pi⟩ (num t) p).position
      = ⟨num (Real.cos (t * s) * f1 * d), num (Real.sin (t * s) * f2 * d), p.position.z⟩ := by
  simp [animatePlanet, JSMath.jsCos, JSMath.jsSin, JSNum.lift1, hd, hs, h1, h2]

theorem animatePlanet_idem (M : JSMath ℝ) (ts : JSNum ℝ) (p : PlanetMesh ℝ) :
    animatePlanet M ts (animatePlanet M ts p) = animatePlanet M ts p := rfl

/-- Claim C10. For the planet that `createPlanets` makes with distance `d`,
speed `s` and shape factors `f1`, `f2` (with `d * f1` and `d * f2` non-zero)
and for every simulated time `t`, the planet update of `animate` writes
`x = cos(t * s) * f1 * d` and `y = sin(t * s) * f2 * d`, a point of the ellipse
`(x/(d*f1))^2 + (y/(d*f2))^2 = 1` whose samples form the orbit drawn for that
planet. The written `(x, y)` is the same from any previous position, and
updating twice with the same `t` equals updating once, for one planet and for
all planets of a frame. -/
theorem planet_rides_its_orbit (w : World ℝ) (col : Nat) (rad : JSNum ℝ) (path : String)
    (d s f1 f2 t : ℝ) (previous : Vec3 ℝ) (frame : JSNum ℝ × JSNum ℝ)
    (ha : d * f1 ≠ 0) (hb : d * f2 ≠ 0) :
    ∃ planet points,
      lastPlanet (createPlanets ⟨Real.cos, Real.sin, Real.pi⟩ (num d) col rad (some (num s))
        (some (num f1)) (some (num f2)) path w) = some planet ∧
      (createPlanets ⟨Real.cos, Real.sin, Real.pi⟩ (num d) col rad (some (num s))
        (some (num f1)) (some (num f2)) path w).orbits.getLast? = some points ∧
      (∀ p ∈ points, ∃ x y : ℝ, p = ⟨num x, num y⟩ ∧
        (x / (d * f1)) ^ 2 + (y / (d * f2)) ^ 2 = 1) ∧
      (∃ x y : ℝ,
        x = Real.cos (t * s) * f1 * d ∧ y = Real.sin (t * s) * f2 * d ∧
        (x / (d * f1)) ^ 2 + (y / (d * f2)) ^ 2 = 1 ∧
        (animatePlanet ⟨Real.cos, Real.sin, Real.pi⟩ (num t) planet).position
          = ⟨num x, num y, num 0⟩ ∧
        (animatePlanet ⟨Real.cos, Real.sin, Real.pi⟩ (num t)
            { planet with position := previous }).position
          = ⟨num x, num y, previous.z⟩) ∧
      animatePlanet ⟨Real.cos, Real.sin, Real.pi⟩ (num t)
          (animatePlanet ⟨Real.cos, Real.sin, Real.pi⟩ (num t) planet)
        = animatePlanet ⟨Real.cos, Real.sin, Real.pi⟩ (num t) planet ∧
      (animate ⟨Real.cos, Real.sin, Real.pi⟩
          (animate ⟨Real.cos, Real.sin, Real.pi⟩ w frame) frame).Planets
        = (animate ⟨Real.cos, Real.sin, Real.pi⟩ w frame).Planets := by
  obtain ⟨_, points, hpts, _, _, _, _, hon⟩ :=
    orbit_polyline_on_ellipse w col rad path d s f1 f2 ha hb
  refine ⟨{ rad := rad, texturePath := path, rotation := ⟨num Real.pi / num 2, num 0, num 0⟩,
            position := ⟨num 0, num 0, num 0⟩, dist := num d, speed := num s,
            f1 := num f1, f2 := num f2, children := [] },
    points, ?_, hpts, hon, ⟨_, _, rfl, rfl, ?_, ?_, ?_⟩, rfl, ?_⟩
  · simp only [lastPlanet, createPlanets, List.getLast?_concat, Option.getD_some]
  · have e1 : Real.cos (t * s) * f1 * d = d * f1 * Real.cos (t * s) := by ring
    have e2 : Real.sin (t * s) * f2 * d = d * f2 * Real.sin (t * s) := by ring
    rw [e1, e2]
    exact on_ellipse _ _ _ ha hb
  · exact animatePlanet_position _ d s f1 f2 t rfl rfl rfl rfl
  · exact animatePlanet_position _ d s f1 f2 t rfl rfl rfl rfl
  · rw [animate_Planets, animate_Planets, List.map_map]
    rfl

/-- Witness for `planet_rides_its_orbit`: `d = 30`, `s = 1`, `f1 = 0.6`,
`f2 = 0.5` at time `t = 2`. -/
theorem planet_rides_its_orbit_witness :
    (30 : ℝ) * 0.6 ≠ 0 ∧ (30 : ℝ) * 0.5 ≠ 0 ∧
    ∃ planet,
      lastPlanet (createPlanets ⟨Real.cos, Real.sin, Real.pi⟩ (num 30) 0xff0000 (num 1)
        (some (num 1)) (some (num 0.6)) (some (num 0.5)) "./planetsTextures/mercury.jpg"
        (initialWorld 0)) = some planet ∧
      ∃ x y : ℝ, (x / (30 * 0.6)) ^ 2 + (y / (30 * 0.5)) ^ 2 = 1 ∧
        (animatePlanet ⟨Real.cos, Real.sin, Real.pi⟩ (num 2) planet).position
          = ⟨num x, num y, num 0⟩ :=
  ⟨by norm_num, by norm_num,
    let ⟨planet, _, h1, _, _, ⟨x, y, _, _, h4, h5, _⟩, _⟩ :=
      planet_rides_its_orbit (initialWorld 0) 0xff0000 (num 1) "./planetsTextures/mercury.jpg"
        30 1 0.6 0.5 2 ⟨num 0, num 0, num 0⟩ (num 0, num 0) (by norm_num) (by norm_num)
    ⟨planet, h1, x, y, h4, h5⟩⟩

end SolarViewer
